import Mathlib

/-!
Verification of the JobTracker follow-up reminder scheduling rule and the
HTTP handlers surrounding it, shallowly embedded from the TypeScript source.

Calendar dates are modelled as integers counting days since 1970-01-01 (the
epoch day of the UTC midnight that `new Date("YYYY-MM-DD")` produces).
Timestamps in milliseconds are the day number times `msPerDay`, matching
`Date.getTime()` on such date-only values.
-/

namespace JobTracker

/-- Milliseconds per day, the `1000 * 60 * 60 * 24` divisor from the source. -/
def msPerDay : ℤ := 1000 * 60 * 60 * 24

/-- Ceiling of the real quotient `a / b` for positive `b`, the semantics of
JavaScript `Math.ceil(a / b)` on exact integer inputs. -/
def ceilDiv (a b : ℤ) : ℤ := -((-a) / b)

/-- Epoch day number of the civil date `y-m-d` (proleptic Gregorian),
so that `daysFromCivil 1970 1 1 = 0`. Used to write concrete calendar
dates in theorems. -/
def daysFromCivil (y m d : ℤ) : ℤ :=
  let yAdj := if m ≤ 2 then y - 1 else y
  let era := (if 0 ≤ yAdj then yAdj else yAdj - 399) / 400
  let yoe := yAdj - era * 400
  let mp := if 2 < m then m - 3 else m + 9
  let doy := (153 * mp + 2) / 5 + d - 1
  let doe := yoe * 365 + yoe / 4 - yoe / 100 + doy
  era * 146097 + doe - 719468

/-- `daysDifference deadlineMs appliedMs` embeds
`Math.ceil((deadlineDate.getTime() - appliedDate.getTime()) / (1000*60*60*24))`
from `src/app/applications/page.tsx`. -/
def daysDifference (deadlineMs appliedMs : ℤ) : ℤ :=
  ceilDiv (deadlineMs - appliedMs) msPerDay

/-- The follow-up reminder scheduling rule from the create-application page
(`src/app/applications/page.tsx`, the `followUpDate` effect): dates are
calendar dates (epoch day numbers); the branch condition compares the
millisecond-level ceiling day difference against the user's
`defaultFollowUpDays`; `setDate(getDate() - 1)` and
`setDate(getDate() + n)` are calendar-day arithmetic. -/
def computeFollowUpDate (applied : ℤ) (deadline : Option ℤ) (n : ℤ) : ℤ :=
  match deadline with
  | some dl =>
      if daysDifference (dl * msPerDay) (applied * msPerDay) ≤ n then
        dl - 1
      else
        applied + n
  | none => applied + n

/-- JavaScript truthiness of an optional number: `undefined`/`null` and `0`
are falsy, every other integer is truthy. -/
def jsTruthyInt : Option ℤ → Bool
  | none => false
  | some v => v != 0

/-- JavaScript truthiness of an optional string: `undefined`/`null` and the
empty string are falsy. -/
def jsTruthyStr : Option String → Bool
  | none => false
  | some s => s != ""

/-- A stored `UserPreferences` row (the fields the preferences route touches). -/
structure Preferences where
  defaultStatus : String
  defaultFollowUpDays : ℤ
  deriving DecidableEq

/-- The `validStatuses` list from the preferences PUT handler. -/
def validStatuses : List String :=
  ["APPLIED", "PHONE_SCREENING", "TECHNICAL_INTERVIEW", "ONSITE_INTERVIEW",
   "FINAL_INTERVIEW", "OFFER", "REJECTED", "WITHDRAWN"]

/-- The JSON body of a preferences PUT request: both fields optional. -/
structure PrefUpdateBody where
  defaultStatus : Option String
  defaultFollowUpDays : Option ℤ
  deriving DecidableEq

/-- Outcome of the preferences PUT handler: a 400 error response or the
stored (upserted) preferences row. -/
inductive PrefPutResult where
  | badRequest (msg : String)
  | ok (stored : Preferences)
  deriving DecidableEq

/-- The preferences GET handler (user preferences route): returns the
existing row, or creates and returns the default row
`{ defaultStatus := "APPLIED", defaultFollowUpDays := 7 }` when absent.
The `Bool` records whether a row was created. -/
def getPreferences (existing : Option Preferences) : Preferences × Bool :=
  match existing with
  | some p => (p, false)
  | none => ({ defaultStatus := "APPLIED", defaultFollowUpDays := 7 }, true)

/-- The preferences PUT handler (user preferences route): validation uses
JavaScript truthiness (`defaultFollowUpDays && (defaultFollowUpDays < 1 ||
defaultFollowUpDays > 30)`), and the upsert includes a field in the update
only when it is truthy (`...(defaultFollowUpDays && { defaultFollowUpDays })`)
and defaults falsy fields on create (`defaultFollowUpDays || 7`). -/
def putPreferences (existing : Option Preferences) (body : PrefUpdateBody) :
    PrefPutResult :=
  if jsTruthyStr body.defaultStatus
      && !(validStatuses.contains (body.defaultStatus.getD "")) then
    .badRequest "Invalid status"
  else if jsTruthyInt body.defaultFollowUpDays
      && (decide (body.defaultFollowUpDays.getD 0 < 1)
          || decide (30 < body.defaultFollowUpDays.getD 0)) then
    .badRequest "Follow-up days must be between 1 and 30"
  else
    .ok (match existing with
      | some p =>
          { defaultStatus :=
              if jsTruthyStr body.defaultStatus then body.defaultStatus.getD ""
              else p.defaultStatus,
            defaultFollowUpDays :=
              if jsTruthyInt body.defaultFollowUpDays then
                body.defaultFollowUpDays.getD 0
              else p.defaultFollowUpDays }
      | none =>
          { defaultStatus :=
              if jsTruthyStr body.defaultStatus then body.defaultStatus.getD ""
              else "APPLIED",
            defaultFollowUpDays :=
              if jsTruthyInt body.defaultFollowUpDays then
                body.defaultFollowUpDays.getD 0
              else 7 })

/-- A `Reminder` row as created by the jobs POST handler. -/
structure Reminder where
  title : String
  remindAt : ℤ
  reminderType : String
  deriving DecidableEq

/-- The parsed body of a jobs POST request (the fields relevant to creating
the job and its follow-up reminder; date fields hold the parsed value of the
zod-validated datetime string, which is never empty). -/
structure CreateJobBody where
  company : String
  position : String
  status : Option String
  appliedDate : Option ℤ
  deadline : Option ℤ
  followUpReminder : Option ℤ
  deriving DecidableEq

/-- The job row created by the jobs POST handler. -/
structure CreatedJob where
  company : String
  position : String
  status : String
  appliedDate : ℤ
  deadline : Option ℤ
  deriving DecidableEq

/-- The jobs POST handler (jobs route): creates the job row (applied date
defaulting to `now`, status defaulting to `"APPLIED"`), and creates a
`follow_up` reminder with `remindAt = new Date(followUpReminder)` exactly
when `followUpReminder` is provided. -/
def postJob (now : ℤ) (body : CreateJobBody) : CreatedJob × Option Reminder :=
  let job : CreatedJob :=
    { company := body.company,
      position := body.position,
      status := if jsTruthyStr body.status then body.status.getD "" else "APPLIED",
      appliedDate := body.appliedDate.getD now,
      deadline := body.deadline }
  let rem : Option Reminder :=
    match body.followUpReminder with
    | some t =>
        some { title := job.position ++ " application",
               remindAt := t,
               reminderType := "follow_up" }
    | none => none
  (job, rem)

/-- An `ApplicationEvent` row (the fields the jobs PUT handler writes). -/
structure AppEvent where
  title : String
  eventType : String
  deriving DecidableEq

/-- A stored job application together with its reminders and events, as seen
by the jobs `[id]` PUT handler. -/
structure StoredJob where
  company : String
  position : String
  status : String
  appliedDate : ℤ
  deadline : Option ℤ
  reminders : List Reminder
  events : List AppEvent
  deriving DecidableEq

/-- The raw JSON body an edit submission may carry, including the
`followUpReminder` field sent by the edit page's `onSubmit`. -/
structure UpdateJobRawBody where
  company : Option String
  position : Option String
  status : Option String
  appliedDate : Option ℤ
  deadline : Option ℤ
  followUpReminder : Option ℤ
  deriving DecidableEq

/-- The result of `updateJobSchema.parse` on an update body: the schema has
no `followUpReminder` field, so zod strips it. -/
structure UpdateJobData where
  company : Option String
  position : Option String
  status : Option String
  appliedDate : Option ℤ
  deadline : Option ℤ
  deriving DecidableEq

/-- `updateJobSchema.parse` on the jobs `[id]` PUT body: keeps the schema
fields and drops the unknown `followUpReminder` key. -/
def parseUpdateBody (b : UpdateJobRawBody) : UpdateJobData :=
  { company := b.company,
    position := b.position,
    status := b.status,
    appliedDate := b.appliedDate,
    deadline := b.deadline }

/-- The jobs `[id]` PUT handler's effect on the stored job: spreads the
parsed fields over the row (absent fields keep their stored value, matching
Prisma's treatment of `undefined`), appends a status-change event when the
status changed, and performs no write to the reminders at all. -/
def putJob (existing : StoredJob) (data : UpdateJobData) : StoredJob :=
  let statusChanged :=
    jsTruthyStr data.status && (data.status.getD "" != existing.status)
  { company := data.company.getD existing.company,
    position := data.position.getD existing.position,
    status := data.status.getD existing.status,
    appliedDate := data.appliedDate.getD existing.appliedDate,
    deadline := match data.deadline with
      | some t => some t
      | none => existing.deadline,
    reminders := existing.reminders,
    events := existing.events ++
      (if statusChanged then
        [{ title := "Status Changed to " ++ data.status.getD "",
           eventType := "status_change" }]
      else []) }

/-- On whole-day timestamps the ceiling day difference is the exact
difference of day numbers. -/
theorem daysDifference_whole_days (dl a : ℤ) :
    daysDifference (dl * msPerDay) (a * msPerDay) = dl - a := by
  unfold daysDifference ceilDiv msPerDay
  have hC : (1000 * 60 * 60 * 24 : ℤ) = 86400000 := by norm_num
  rw [hC]
  omega


/-- C1: with no deadline, the computed follow-up reminder date is the
applied date plus `defaultFollowUpDays` days. -/
theorem followUp_no_deadline (a n : ℤ) (_h : 0 < n) :
    computeFollowUpDate a none n = a + n := rfl

theorem followUp_no_deadline_witness :
    (0 : ℤ) < 7 ∧
      computeFollowUpDate (daysFromCivil 2024 1 1) none 7 = daysFromCivil 2024 1 1 + 7 :=
  ⟨by decide, followUp_no_deadline (daysFromCivil 2024 1 1) 7 (by decide)⟩

/-- C2: with a deadline, `daysUntilDeadline` is the ceiling day difference,
the near-deadline branch (`<=`) yields `deadline - 1`, and the far-deadline
branch yields `applied + n`. -/
theorem followUp_with_deadline (a dl n : ℤ) (_h : 0 < n) :
    daysDifference (dl * msPerDay) (a * msPerDay) = dl - a ∧
    (dl - a ≤ n → computeFollowUpDate a (some dl) n = dl - 1) ∧
    (n < dl - a → computeFollowUpDate a (some dl) n = a + n) := by
  refine ⟨daysDifference_whole_days dl a, ?_, ?_⟩
  · intro hle
    show (if daysDifference (dl * msPerDay) (a * msPerDay) ≤ n then dl - 1 else a + n) = dl - 1
    rw [daysDifference_whole_days, if_pos hle]
  · intro hgt
    show (if daysDifference (dl * msPerDay) (a * msPerDay) ≤ n then dl - 1 else a + n) = a + n
    rw [daysDifference_whole_days, if_neg (by omega)]

theorem followUp_with_deadline_witness :
    (0 : ℤ) < 7 ∧ daysFromCivil 2024 1 8 - daysFromCivil 2024 1 1 ≤ 7 ∧
      computeFollowUpDate (daysFromCivil 2024 1 1) (some (daysFromCivil 2024 1 8)) 7
        = daysFromCivil 2024 1 8 - 1 :=
  ⟨by decide, by decide,
    (followUp_with_deadline (daysFromCivil 2024 1 1) (daysFromCivil 2024 1 8) 7
      (by decide)).2.1 (by decide)⟩

/-- C3 counterexample: for applied 2024-01-10, deadline 2024-01-05, n = 7,
the computed reminder date is strictly before the applied date, refuting
"never a date in the past relative to appliedDate". -/
theorem followUp_past_cex :
    computeFollowUpDate (daysFromCivil 2024 1 10) (some (daysFromCivil 2024 1 5)) 7
      < daysFromCivil 2024 1 10 := by decide

/-- C3 amended: the reminder is on or after the applied date when no deadline
is given, strictly before the deadline whenever the deadline-relative branch
triggers, and never in the past relative to the applied date provided any
present deadline is strictly after the applied date. -/
theorem followUp_invariant (a n : ℤ) (dl? : Option ℤ) (h : 0 < n) :
    (dl? = none → a ≤ computeFollowUpDate a dl? n) ∧
    (∀ dl, dl? = some dl → dl - a ≤ n → computeFollowUpDate a dl? n < dl) ∧
    ((∀ dl, dl? = some dl → a < dl) → a ≤ computeFollowUpDate a dl? n) := by
  refine ⟨?_, ?_, ?_⟩
  · rintro rfl
    show a ≤ a + n
    omega
  · rintro dl rfl hle
    show (if daysDifference (dl * msPerDay) (a * msPerDay) ≤ n then dl - 1 else a + n) < dl
    rw [daysDifference_whole_days, if_pos hle]
    omega
  · intro hdl
    cases dl? with
    | none =>
        show a ≤ a + n
        omega
    | some dl =>
        have h1 : a < dl := hdl dl rfl
        show a ≤ (if daysDifference (dl * msPerDay) (a * msPerDay) ≤ n then dl - 1 else a + n)
        rw [daysDifference_whole_days]
        split <;> omega

theorem followUp_invariant_witness :
    (0 : ℤ) < 7 ∧
      computeFollowUpDate (daysFromCivil 2024 1 1) (some (daysFromCivil 2024 1 5)) 7
        < daysFromCivil 2024 1 5 :=
  ⟨by decide,
    (followUp_invariant (daysFromCivil 2024 1 1) 7 (some (daysFromCivil 2024 1 5))
      (by decide)).2.1 (daysFromCivil 2024 1 5) rfl (by decide)⟩

/-- C4: applied 2024-01-10, deadline 2024-01-05, n = 7 gives
daysUntilDeadline = -5 ≤ 7, so the result is deadline minus one day,
2024-01-04, strictly before the applied date. -/
theorem followUp_deadline_before_applied :
    daysDifference (daysFromCivil 2024 1 5 * msPerDay) (daysFromCivil 2024 1 10 * msPerDay)
        = -5 ∧
    (-5 : ℤ) ≤ 7 ∧
    computeFollowUpDate (daysFromCivil 2024 1 10) (some (daysFromCivil 2024 1 5)) 7
        = daysFromCivil 2024 1 4 ∧
    daysFromCivil 2024 1 4 < daysFromCivil 2024 1 10 := by decide

/-- C5: the computation is deterministic — equal inputs give equal outputs;
it is a function of exactly its three arguments. -/
theorem followUp_deterministic (a₁ a₂ : ℤ) (d₁ d₂ : Option ℤ) (n₁ n₂ : ℤ)
    (ha : a₁ = a₂) (hd : d₁ = d₂) (hn : n₁ = n₂) :
    computeFollowUpDate a₁ d₁ n₁ = computeFollowUpDate a₂ d₂ n₂ := by
  subst ha
  subst hd
  subst hn
  rfl

theorem followUp_deterministic_witness :
    computeFollowUpDate (daysFromCivil 2024 1 1) (some (daysFromCivil 2024 1 8)) 7
      = computeFollowUpDate (daysFromCivil 2024 1 1) (some (daysFromCivil 2024 1 8)) 7 :=
  followUp_deterministic (daysFromCivil 2024 1 1) (daysFromCivil 2024 1 1)
    (some (daysFromCivil 2024 1 8)) (some (daysFromCivil 2024 1 8)) 7 7 rfl rfl rfl


/-- C6 counterexample: a PUT body with defaultFollowUpDays = 0 — outside the
range [1, 30] — is not rejected: the handler returns the stored row. -/
theorem prefs_put_zero_accepted_cex :
    putPreferences (some { defaultStatus := "APPLIED", defaultFollowUpDays := 5 })
        { defaultStatus := none, defaultFollowUpDays := some 0 }
      = .ok { defaultStatus := "APPLIED", defaultFollowUpDays := 5 } ∧ (0 : ℤ) < 1 := by
  decide

/-- C6 amended: a nonzero defaultFollowUpDays outside [1, 30] is rejected
with an error; a request with value 0 bypasses validation; and, assuming the
already-stored value (if any) lies in [1, 30], the stored value after a
successful request still lies in [1, 30]. -/
theorem prefs_put_range (existing : Option Preferences) (body : PrefUpdateBody) :
    (∀ v, body.defaultFollowUpDays = some v → v ≠ 0 → (v < 1 ∨ 30 < v) →
      ∃ msg, putPreferences existing body = .badRequest msg) ∧
    (∀ p, putPreferences existing body = .ok p →
      (∀ p₀, existing = some p₀ →
        1 ≤ p₀.defaultFollowUpDays ∧ p₀.defaultFollowUpDays ≤ 30) →
      1 ≤ p.defaultFollowUpDays ∧ p.defaultFollowUpDays ≤ 30) := by
  constructor
  · intro v hv hv0 hrange
    unfold putPreferences
    split
    · exact ⟨_, rfl⟩
    · rw [if_pos]
      · exact ⟨_, rfl⟩
      · rw [hv]
        simp only [jsTruthyInt, Option.getD_some, Bool.and_eq_true, bne_iff_ne, ne_eq,
          Bool.or_eq_true, decide_eq_true_eq]
        exact ⟨hv0, by omega⟩
  · intro p hp hinv
    unfold putPreferences at hp
    split at hp
    · exact absurd hp (by simp)
    · split at hp
      · exact absurd hp (by simp)
      · rename_i hcond
        simp only [Bool.and_eq_true, Bool.or_eq_true, decide_eq_true_eq, not_and,
          not_or, not_lt] at hcond
        simp only [PrefPutResult.ok.injEq] at hp
        subst hp
        cases existing with
        | some p₀ =>
            have hr := hinv p₀ rfl
            by_cases ht : jsTruthyInt body.defaultFollowUpDays = true
            · have hb := hcond ht
              simp only [ht, if_true]
              omega
            · simp only [ht]
              simpa using hr
        | none =>
            by_cases ht : jsTruthyInt body.defaultFollowUpDays = true
            · have hb := hcond ht
              simp only [ht, if_true]
              omega
            · simp only [ht]
              norm_num

theorem prefs_put_range_witness :
    (∃ msg,
      putPreferences (some { defaultStatus := "APPLIED", defaultFollowUpDays := 5 })
          { defaultStatus := none, defaultFollowUpDays := some 40 }
        = .badRequest msg) := by
  exact (prefs_put_range (some { defaultStatus := "APPLIED", defaultFollowUpDays := 5 })
    { defaultStatus := none, defaultFollowUpDays := some 40 }).1 40 rfl
    (by decide) (by decide)

/-- C7: GET returns the stored preferences row when present; otherwise it
creates and returns the default row with defaultFollowUpDays = 7. -/
theorem prefs_get_default (existing : Option Preferences) :
    (∀ p, existing = some p → getPreferences existing = (p, false)) ∧
    (existing = none →
      getPreferences existing
        = ({ defaultStatus := "APPLIED", defaultFollowUpDays := 7 }, true)) := by
  constructor
  · rintro p rfl
    rfl
  · rintro rfl
    rfl

theorem prefs_get_default_witness :
    getPreferences none = ({ defaultStatus := "APPLIED", defaultFollowUpDays := 7 }, true) :=
  (prefs_get_default none).2 rfl

/-- C9: the create endpoint persists the client-supplied followUpReminder
verbatim as a follow_up reminder, and creates no reminder when it is
omitted — no recomputation against appliedDate, deadline or preference. -/
theorem post_job_reminder_verbatim (now : ℤ) (body : CreateJobBody) :
    (∀ t, body.followUpReminder = some t →
      (postJob now body).2
        = some { title := body.position ++ " application",
                 remindAt := t, reminderType := "follow_up" }) ∧
    (body.followUpReminder = none → (postJob now body).2 = none) := by
  constructor
  · intro t ht
    simp [postJob, ht]
  · intro ht
    simp [postJob, ht]

theorem post_job_reminder_verbatim_witness :
    (postJob (daysFromCivil 2024 1 1)
        { company := "Acme", position := "Engineer", status := none,
          appliedDate := some (daysFromCivil 2024 1 1),
          deadline := some (daysFromCivil 2024 1 5),
          followUpReminder := some (daysFromCivil 2024 3 1) }).2
      = some { title := "Engineer application",
               remindAt := daysFromCivil 2024 3 1, reminderType := "follow_up" } :=
  (post_job_reminder_verbatim (daysFromCivil 2024 1 1)
    { company := "Acme", position := "Engineer", status := none,
      appliedDate := some (daysFromCivil 2024 1 1),
      deadline := some (daysFromCivil 2024 1 5),
      followUpReminder := some (daysFromCivil 2024 3 1) }).1
    (daysFromCivil 2024 3 1) rfl

/-- C10: a PUT with defaultFollowUpDays = 0 (and a valid or absent status)
succeeds: 0 is falsy so it bypasses the range check and is omitted from the
update, leaving the stored value unchanged (or 7 on create). -/
theorem prefs_put_zero_bypass (existing : Option Preferences) (ds : Option String)
    (hds : jsTruthyStr ds = false ∨ validStatuses.contains (ds.getD "") = true) :
    ∃ p, putPreferences existing { defaultStatus := ds, defaultFollowUpDays := some 0 }
          = .ok p ∧
      p.defaultFollowUpDays
        = (match existing with
           | some p₀ => p₀.defaultFollowUpDays
           | none => 7) := by
  unfold putPreferences
  have h2 : jsTruthyInt (some 0) = false := by decide
  rw [if_neg (by
    rcases hds with h | h
    · simp [h]
    · rw [h]
      simp)]
  rw [if_neg (by simp [h2])]
  refine ⟨_, rfl, ?_⟩
  cases existing with
  | some p₀ => simp [h2]
  | none => simp [h2]

theorem prefs_put_zero_bypass_witness :
    ∃ p, putPreferences (some { defaultStatus := "APPLIED", defaultFollowUpDays := 5 })
          { defaultStatus := none, defaultFollowUpDays := some 0 } = .ok p ∧
      p.defaultFollowUpDays
        = (match (some { defaultStatus := "APPLIED",
                         defaultFollowUpDays := 5 } : Option Preferences) with
           | some p₀ => p₀.defaultFollowUpDays
           | none => 7) :=
  prefs_put_zero_bypass (some { defaultStatus := "APPLIED", defaultFollowUpDays := 5 })
    none (by decide)

/-- The jobs `[id]` PUT handler never writes to the reminders of the job. -/
theorem putJob_preserves_reminders (existing : StoredJob) (data : UpdateJobData) :
    (putJob existing data).reminders = existing.reminders := rfl

/-- C8: editing an application's appliedDate does not recompute its
follow-up reminder: at a concrete stored job (applied 2024-01-01, follow_up
reminder 2024-01-08 from the default 7-day window) an edit moving the
applied date to 2024-02-01 (even resubmitting a followUpReminder field,
which the schema strips) leaves the persisted reminder at 2024-01-08,
while the scheduling rule at the new inputs yields 2024-02-08. -/
theorem edit_does_not_recompute_reminder :
    (putJob
        { company := "Acme", position := "Engineer", status := "APPLIED",
          appliedDate := daysFromCivil 2024 1 1, deadline := none,
          reminders := [{ title := "Engineer application",
                          remindAt := daysFromCivil 2024 1 8,
                          reminderType := "follow_up" }],
          events := [] }
        (parseUpdateBody
          { company := none, position := none, status := none,
            appliedDate := some (daysFromCivil 2024 2 1), deadline := none,
            followUpReminder := some (daysFromCivil 2024 2 8) })).appliedDate
      = daysFromCivil 2024 2 1 ∧
    (putJob
        { company := "Acme", position := "Engineer", status := "APPLIED",
          appliedDate := daysFromCivil 2024 1 1, deadline := none,
          reminders := [{ title := "Engineer application",
                          remindAt := daysFromCivil 2024 1 8,
                          reminderType := "follow_up" }],
          events := [] }
        (parseUpdateBody
          { company := none, position := none, status := none,
            appliedDate := some (daysFromCivil 2024 2 1), deadline := none,
            followUpReminder := some (daysFromCivil 2024 2 8) })).reminders
      = [{ title := "Engineer application", remindAt := daysFromCivil 2024 1 8,
           reminderType := "follow_up" }] ∧
    computeFollowUpDate (daysFromCivil 2024 2 1) none 7 = daysFromCivil 2024 2 8 ∧
    daysFromCivil 2024 1 8 ≠ daysFromCivil 2024 2 8 := by
  decide

end JobTracker
